import Mathlib

/-
Verification development for the phply repository (femto113 fork), covering
two source files:

  * src/phply/phpast.py    - dynamic AST node kinds (class factory `node`),
    with `Node.__init__` asserting positional arity and setattr-binding fields;
  * src/tools/php2jinja.py - the PHP-to-Jinja2 transpiler: the recursive
    dispatch `unparse_node`, the tag generators `jstatement` / `jexpr`, the
    stub-synthesis loop over `called_functions`, and the final blank-line
    collapse `jinja.replace("\n\n", "\n")`.

The embedding is shallow: Python exceptions are modelled as `Except` error
values, Python strings as `String`, the AST value space (node instances plus
the scalars str / int and None that the parser stores in node fields) as the
inductive type `PNode`.

A central fact about this snapshot of the sources, used throughout: the node
kinds in phpast.py are spelled `ForEach` / `ForEachVariable`, while
php2jinja.py line 173 constructs `ForeachVariable(...)` / `Foreach(...)` and
line 177 tests `isinstance(node, Foreach)`.  Neither `Foreach` nor
`ForeachVariable` is a name exported by `from phply.phpast import *`, so:

  * the `While` branch (lines 171-175) raises NameError("ForeachVariable")
    when it evaluates the callee `ForeachVariable` at line 173, before
    `loop_var_index` is read or incremented;
  * every node that falls through to line 177 raises NameError("Foreach")
    when the `isinstance` test evaluates the name `Foreach`.  Consequently
    all branches on lines 177-243 (Foreach, Function, Return, FunctionCall,
    MethodCall, StaticMethodCall, New, and the default XXX-marker fallback)
    are unreachable dead code, the registry write
    `called_functions.setdefault(...).append(...)` at line 210 never runs,
    and the two module-level globals `called_functions` / `loop_var_index`
    are never read nor written on any reachable path of `unparse_node`.
    The embedding of `unparse_node` is therefore a pure function, and the
    dead branches contribute a single catch-all error case.

Two further field-name mismatches between the files are modelled faithfully:
phpast declares the IsSet kind with the single field expr while the
transpiler reads `node.nodes` (AttributeError), and it declares the
ArrayElement kind with the fields name, node, is_ref while the transpiler
reads `node.key` / `node.value` (AttributeError).
-/

/- ------------------------------------------------------------------ -/
/- Part 1: the AST model (phpast.py).                                  -/
/- ------------------------------------------------------------------ -/

/-- Python attribute assignment on an object, modelled on an insertion-ordered
association list: `setattr` overwrites an existing binding in place or appends
a new one.  (phpast.py line 19: `setattr(self, field, args[i])`.) -/
def pySetattr {α : Type} : List (String × α) → String → α → List (String × α)
  | [], k, v => [(k, v)]
  | (k', v') :: rest, k, v =>
      if k' = k then (k, v) :: rest else (k', v') :: pySetattr rest k v

/-- Python attribute lookup: first (unique) binding of the name, if any. -/
def pyGetattr {α : Type} : List (String × α) → String → Option α
  | [], _ => none
  | (k', v') :: rest, k => if k' = k then some v' else pyGetattr rest k

/-- Node.__init__ from phpast.py lines 10-19: the arity assertion
`len(self.fields) == len(args)` (message "%s takes %d arguments") is
modelled as an error value since an assertion failure aborts construction;
on success `self.lineno` is set first (kwargs value, or None - here the
caller-supplied `ln`), then each declared field is bound to the
corresponding positional argument in order.  Field values are an arbitrary
type `α` because Python attributes are untyped. -/
def nodeInit {α : Type} (cls : String) (fields : List String) (args : List α)
    (ln : α) : Except String (List (String × α)) :=
  if fields.length = args.length then
    .ok ((fields.zip args).foldl (fun attrs p => pySetattr attrs p.1 p.2)
          (pySetattr [] "lineno" ln))
  else
    .error (cls ++ " takes " ++ toString fields.length ++ " arguments")

/-- The value space the transpiler dispatches on: every node kind declared in
phpast.py lines 54-116 (with its declared fields, in order), plus the Python
scalars that the parser stores directly in node fields - strings, ints and
None.  Fields that the parser always fills with a plain string (names,
operator spellings, cast types, raw HTML) are typed `String`; fields that may
hold None or a nested node are typed `PNode` with `Pnull` for None; sequence
fields are `List PNode`.  (`extends` is a Lean keyword, hence `extends_`;
`else_` / `class_` are already spelled with the underscore in the source.) -/
inductive PNode where
  | Pstr (s : String)
  | Pint (n : Int)
  | Pnull
  | InlineHTML (data : String)
  | Block (nodes : List PNode)
  | Assignment (node : PNode) (expr : PNode) (is_ref : Bool)
  | ListAssignment (nodes : List PNode) (expr : PNode)
  | New (name : String) (params : List PNode)
  | Clone (node : PNode)
  | Break (node : PNode)
  | Continue (node : PNode)
  | Return (node : PNode)
  | Global (nodes : List PNode)
  | Static (nodes : List PNode)
  | Echo (nodes : List PNode)
  | Print (node : PNode)
  | Unset (nodes : List PNode)
  | Throw (node : PNode)
  | Function (name : String) (params : List PNode) (nodes : List PNode) (is_ref : Bool)
  | Method (name : String) (modifiers : List String) (params : List PNode)
      (nodes : List PNode) (is_ref : Bool)
  | Class (name : String) (type : PNode) (extends_ : PNode)
      (implements : List String) (nodes : List PNode)
  | ClassConstants (nodes : List PNode)
  | ClassConstant (name : String) (initial : PNode)
  | ClassVariables (modifiers : List String) (nodes : List PNode)
  | ClassVariable (name : String) (initial : PNode)
  | Interface (name : String) (extends_ : PNode) (nodes : List PNode)
  | AssignOp (op : String) (left : PNode) (right : PNode)
  | BinaryOp (op : String) (left : PNode) (right : PNode)
  | UnaryOp (op : String) (expr : PNode)
  | TernaryOp (expr : PNode) (iftrue : PNode) (iffalse : PNode)
  | PreIncDecOp (op : String) (expr : PNode)
  | PostIncDecOp (op : String) (expr : PNode)
  | Cast (type : String) (expr : PNode)
  | IsSet (expr : PNode)
  | Empty (expr : PNode)
  | Eval (expr : PNode)
  | Include (expr : PNode) (once : Bool)
  | Require (expr : PNode) (once : Bool)
  | Exit (expr : PNode)
  | Silence (expr : PNode)
  | MagicConstant (name : String) (value : PNode)
  | Constant (name : String)
  | Variable (name : String)
  | StaticVariable (name : String) (initial : PNode)
  | FormalParameter (name : String) (default : PNode) (is_ref : Bool)
  | Parameter (node : PNode) (is_ref : Bool)
  | FunctionCall (name : String) (params : List PNode)
  | Array (nodes : List PNode)
  | ArrayElement (name : PNode) (node : PNode) (is_ref : Bool)
  | ArrayOffset (node : PNode) (expr : PNode)
  | StringOffset (node : PNode) (expr : PNode)
  | ObjectProperty (node : PNode) (name : String)
  | StaticProperty (node : PNode) (name : String)
  | MethodCall (node : PNode) (name : String) (params : List PNode)
  | ScopeResolution (class_ : String) (node : PNode)
  | If (expr : PNode) (node : PNode) (elseifs : List PNode) (else_ : PNode)
  | ElseIf (expr : PNode) (node : PNode)
  | Else (node : PNode)
  | While (expr : PNode) (node : PNode)
  | DoWhile (node : PNode) (expr : PNode)
  | For (start : PNode) (test : List PNode) (count : List PNode) (node : PNode)
  | ForEach (expr : PNode) (keyvar : PNode) (valvar : PNode) (node : PNode)
  | ForEachVariable (name : String) (is_ref : Bool)
  | Switch (expr : PNode) (nodes : List PNode)
  | Case (expr : PNode) (nodes : List PNode)
  | Default (nodes : List PNode)

/-- The Python class name of a value, as it appears in AttributeError
messages (scalars report their builtin type names). -/
def pyTypeName : PNode → String
  | .Pstr _ => "str"
  | .Pint _ => "int"
  | .Pnull => "NoneType"
  | .InlineHTML _ => "InlineHTML"
  | .Block _ => "Block"
  | .Assignment _ _ _ => "Assignment"
  | .ListAssignment _ _ => "ListAssignment"
  | .New _ _ => "New"
  | .Clone _ => "Clone"
  | .Break _ => "Break"
  | .Continue _ => "Continue"
  | .Return _ => "Return"
  | .Global _ => "Global"
  | .Static _ => "Static"
  | .Echo _ => "Echo"
  | .Print _ => "Print"
  | .Unset _ => "Unset"
  | .Throw _ => "Throw"
  | .Function _ _ _ _ => "Function"
  | .Method _ _ _ _ _ => "Method"
  | .Class _ _ _ _ _ => "Class"
  | .ClassConstants _ => "ClassConstants"
  | .ClassConstant _ _ => "ClassConstant"
  | .ClassVariables _ _ => "ClassVariables"
  | .ClassVariable _ _ => "ClassVariable"
  | .Interface _ _ _ => "Interface"
  | .AssignOp _ _ _ => "AssignOp"
  | .BinaryOp _ _ _ => "BinaryOp"
  | .UnaryOp _ _ => "UnaryOp"
  | .TernaryOp _ _ _ => "TernaryOp"
  | .PreIncDecOp _ _ => "PreIncDecOp"
  | .PostIncDecOp _ _ => "PostIncDecOp"
  | .Cast _ _ => "Cast"
  | .IsSet _ => "IsSet"
  | .Empty _ => "Empty"
  | .Eval _ => "Eval"
  | .Include _ _ => "Include"
  | .Require _ _ => "Require"
  | .Exit _ => "Exit"
  | .Silence _ => "Silence"
  | .MagicConstant _ _ => "MagicConstant"
  | .Constant _ => "Constant"
  | .Variable _ => "Variable"
  | .StaticVariable _ _ => "StaticVariable"
  | .FormalParameter _ _ _ => "FormalParameter"
  | .Parameter _ _ => "Parameter"
  | .FunctionCall _ _ => "FunctionCall"
  | .Array _ => "Array"
  | .ArrayElement _ _ _ => "ArrayElement"
  | .ArrayOffset _ _ => "ArrayOffset"
  | .StringOffset _ _ => "StringOffset"
  | .ObjectProperty _ _ => "ObjectProperty"
  | .StaticProperty _ _ => "StaticProperty"
  | .MethodCall _ _ _ => "MethodCall"
  | .ScopeResolution _ _ => "ScopeResolution"
  | .If _ _ _ _ => "If"
  | .ElseIf _ _ => "ElseIf"
  | .Else _ => "Else"
  | .While _ _ => "While"
  | .DoWhile _ _ => "DoWhile"
  | .For _ _ _ _ => "For"
  | .ForEach _ _ _ _ => "ForEach"
  | .ForEachVariable _ _ => "ForEachVariable"
  | .Switch _ _ => "Switch"
  | .Case _ _ => "Case"
  | .Default _ => "Default"

/-- Python truthiness of an AST field value: None is falsy, a string is
truthy iff non-empty, an int iff non-zero, and a node instance (no `__bool__`
or `__len__` on Node) is always truthy. -/
def pyTruthy : PNode → Bool
  | .Pnull => false
  | .Pstr s => !s.isEmpty
  | .Pint n => n != 0
  | _ => true

/- ------------------------------------------------------------------ -/
/- Part 2: the transpiler (php2jinja.py).                              -/
/- ------------------------------------------------------------------ -/

/-- The configuration surface of a run that the core functions consult:
`args.use_line_statements`, `args.dry_run`, and whether `args.stubs` was
given (php2jinja.py lines 14-21). -/
structure Cfg where
  useLineStatements : Bool
  dryRun : Bool
  stubsRequested : Bool

/-- The default configuration: delimiter mode, output written, no stubs. -/
def defaultCfg : Cfg := ⟨false, false, false⟩

/-- Python exceptions raised on reachable paths of the transpiler. -/
inductive PyErr where
  | nameError (missing : String)
  | attributeError (typeName : String) (attr : String)
  | indexError
deriving DecidableEq

deriving instance DecidableEq for Except

/-- The indentation unit `indent_with = "\t"` (line 27). -/
def indentWith : String := "\t"

/-- String repetition, Python `s * n`. -/
def repeatStr (s : String) (n : Nat) : String := String.join (List.replicate n s)

/-- Python repr of a str: quoted with single quotes unless the string
contains a single quote and no double quote, with backslash, the quote
character, and the common control characters escaped.  (Partial model: the
`\xhh` escaping of other non-printable characters is not modelled; no claim
below depends on it.) -/
def pyReprStr (s : String) : String :=
  let q : Char := if s.data.contains '\x27' && !(s.data.contains '"') then '"' else '\x27'
  let esc : Char → String := fun c =>
    if c = '\\' then "\\\\"
    else if c = q then "\\" ++ q.toString
    else if c = '\n' then "\\n"
    else if c = '\r' then "\\r"
    else if c = '\t' then "\\t"
    else c.toString
  q.toString ++ String.join (s.data.map esc) ++ q.toString

/-- Python `sep.join(items)` on a list of strings. -/
def joinWith (sep : String) : List String → String
  | [] => ""
  | [x] => x
  | x :: xs => x ++ sep ++ joinWith sep xs

/-- jstatement (lines 33-36): line-statement mode renders `\n# items\n`
unless inline; delimiter mode renders a `\x7b% ... %\x7d` tag with optional
strip dashes (left default off, right default on at every call site). -/
def jstatement (cfg : Cfg) (items : List String) (ind : Nat)
    (inline lstrip rstrip : Bool) : String :=
  if !inline && cfg.useLineStatements then
    "\n# " ++ repeatStr indentWith ind ++ joinWith " " items ++ "\n"
  else
    repeatStr indentWith ind ++ "\x7b%" ++ (if lstrip then "-" else "") ++ " "
      ++ joinWith " " items ++ " " ++ (if rstrip then "-" else "") ++ "%\x7d"

/-- jexpr (lines 38-39): a `\x7b\x7b ... \x7d\x7d` output tag with optional
strip dashes (left default off, right default on). -/
def jexpr (body : String) (ind : Nat) (lstrip rstrip : Bool) : String :=
  repeatStr indentWith ind ++ "\x7b\x7b" ++ (if lstrip then "-" else "") ++ " "
    ++ body ++ " " ++ (if rstrip then "-" else "") ++ "\x7d\x7d"

/-- op_map (lines 44-51) with the `.get(op, op)` default of line 127/131. -/
def opMap (op : String) : String :=
  if op = "&&" then "and"
  else if op = "||" then "or"
  else if op = "!" then "not"
  else if op = "!==" then "!="
  else if op = "===" then "=="
  else if op = "." then "~"
  else op

/-- constant_map lookup of line 74: the lower-cased name is looked up in
the map (lines 55-59); on a miss the original spelling passes through. -/
def constantMap (name : String) : String :=
  if name.toLower = "null" then "none"
  else if name.toLower = "true" then "true"
  else if name.toLower = "false" then "false"
  else name

set_option maxHeartbeats 1600000 in
mutual

/-- unparse_node (php2jinja.py lines 64-243), as a pure function
`cfg → node → is_expr → indent → Except`.  Reachable branches are translated
clause by clause; every node kind without a live branch - everything the
source dispatch would test after line 175, including the entire lines
177-243 - is a single catch-all raising NameError("Foreach"), because the
very first test of that region, `isinstance(node, Foreach)` at line 177,
evaluates the undefined name `Foreach` (phpast exports `ForEach`).  The two
globals are untouched on every reachable path (see the file header), so no
state is threaded.  `is_expr` is only read by dead branches (lines 218, 240)
and is kept for signature fidelity; the append-assignment branch passes
Python None for it, modelled as `false` (both falsy, and never read). -/
def unparseNode (cfg : Cfg) : PNode → Bool → Nat → Except PyErr String
  -- lines 67-68: bare str/int/float scalars render as their repr
  | .Pstr s, _, _ => .ok (pyReprStr s)
  | .Pint n, _, _ => .ok (toString n)
  -- lines 70-71
  | .InlineHTML d, _, _ => .ok d
  -- lines 73-74
  | .Constant name, _, _ => .ok (constantMap name)
  -- lines 76-77: the leading sigil is stripped
  | .Variable name, _, _ => .ok (name.drop 1)
  -- lines 79-81: operands joined (each in expression position), " | safe"
  -- appended, wrapped by jexpr with its defaults (right strip on)
  | .Echo ns, _, _ => do
      let parts ← unparseEach cfg true 0 ns
      .ok (jexpr (String.join parts ++ " | safe") 0 false true)
  -- lines 83-84: Include and Require share one hardcoded tag
  | .Include e _, _, _ => do
      let s ← unparseNode cfg e true 0
      .ok ("\x7b% include " ++ s ++ " -%\x7d")
  | .Require e _, _, _ => do
      let s ← unparseNode cfg e true 0
      .ok ("\x7b% include " ++ s ++ " -%\x7d")
  -- lines 86-87: children concatenated with no separator
  | .Block ns, _, _ => do
      let parts ← unparseEach cfg false 0 ns
      .ok (String.join parts)
  -- lines 89-91 (an ArrayOffset whose expr is None renders None through the
  -- dispatch, which falls to line 177 and raises - only the append-
  -- assignment special case below destructures it without rendering)
  | .ArrayOffset n e, _, _ => do
      let a ← unparseNode cfg n true 0
      let b ← unparseNode cfg e true 0
      .ok (a ++ "[" ++ b ++ "]")
  -- lines 93-94
  | .ObjectProperty n name, _, _ => do
      let a ← unparseNode cfg n true 0
      .ok (a ++ "." ++ name)
  -- lines 96-103: every element is rendered first (lines 97-99); then the
  -- key test `node.nodes[0].key` at line 100 raises AttributeError for any
  -- non-empty literal, since no kind in this phpast declares a field `key`
  -- (ArrayElement declares name/node/is_ref); the empty literal renders `[]`
  | .Array ns, _, _ => do
      let _elems ← unparseEach cfg true 0 ns
      match ns with
      | [] => .ok "[]"
      | first :: _ => .error (.attributeError (pyTypeName first) "key")
  -- lines 105-110: `if node.key:` raises AttributeError immediately
  | .ArrayElement _ _ _, _, _ => .error (.attributeError "ArrayElement" "key")
  -- lines 112-118: first arm is the append special case
  -- `isinstance(node.node, ArrayOffset) and node.node.expr is None`; the
  -- container is rendered first (with is_expr=None, falsy and never read),
  -- then the right-hand side; every other left-hand shape takes the second
  -- arm, a jstatement set-tag with jstatement defaults
  | .Assignment (.ArrayOffset container .Pnull) rhs _, _, _ => do
      let c ← unparseNode cfg container false 0
      let r ← unparseNode cfg rhs true 0
      .ok ("\x7b% do " ++ c ++ ".append(" ++ r ++ ") -%\x7d")
  | .Assignment lhs rhs _, _, _ => do
      let l ← unparseNode cfg lhs true 0
      let r ← unparseNode cfg rhs true 0
      .ok (jstatement cfg ["set", l, "=", r] 0 false false true)
  -- lines 120-124: only `.=` is handled; any other compound operator falls
  -- through the remaining isinstance tests to line 177 (AssignOp matches
  -- none of them) and raises there
  | .AssignOp op l r, _, _ =>
      if op = ".=" then do
        let v ← unparseNode cfg l true 0
        let rr ← unparseNode cfg r true 0
        .ok ("\x7b% set " ++ v ++ " = " ++ v ++ " ~ " ++ rr ++ " -%\x7d")
      else .error (.nameError "Foreach")
  -- lines 126-128
  | .UnaryOp op e, _, _ => do
      let s ← unparseNode cfg e true 0
      .ok ("(" ++ opMap op ++ " " ++ s ++ ")")
  -- lines 130-133
  | .BinaryOp op l r, _, _ => do
      let a ← unparseNode cfg l true 0
      let b ← unparseNode cfg r true 0
      .ok ("(" ++ a ++ " " ++ opMap op ++ " " ++ b ++ ")")
  -- lines 135-138: format arguments are rendered iftrue, cond, iffalse
  | .TernaryOp c t f, _, _ => do
      let a ← unparseNode cfg t true 0
      let b ← unparseNode cfg c true 0
      let d ← unparseNode cfg f true 0
      .ok ("(" ++ a ++ " if " ++ b ++ " else " ++ d ++ ")")
  -- lines 140-146: the branch reads `node.nodes`, but this phpast declares
  -- IsSet with the single field `expr` - AttributeError
  | .IsSet _, _, _ => .error (.attributeError "IsSet" "nodes")
  -- lines 148-149
  | .Empty e, _, _ => do
      let s ← unparseNode cfg e true 0
      .ok ("(not " ++ s ++ ")")
  -- lines 151-152
  | .Silence e, _, _ => unparseNode cfg e true 0
  -- lines 154-158
  | .Cast ty e, _, _ => do
      let s ← unparseNode cfg e true 0
      .ok (s ++ (if ty = "int" || ty = "float" || ty = "string" then "|" ++ ty else ""))
  -- lines 160-169: then-branch first (statement position, indent 0), then
  -- each elseif (condition in expression position at indent 0, body at
  -- indent+1 preceded by the indent string), then the optional else (body at
  -- indent+1, no indent prefix), and the if-condition is rendered last when
  -- the format string of line 168 builds its arguments
  | .If cexpr thenN elseifs (.Else en), _, ind => do
      let body0 ← unparseNode cfg thenN false 0
      let body1 ← unparseElseifs cfg ind elseifs body0
      let eb ← unparseNode cfg en false (ind + 1)
      let cs ← unparseNode cfg cexpr true 0
      .ok ("\x7b% if " ++ cs ++ " -%\x7d\n" ++ repeatStr indentWith (ind + 1)
            ++ (body1 ++ "\n\x7b% else -%\x7d\n" ++ eb) ++ "\n\x7b% endif -%\x7d")
  -- the parser only ever stores an Else node (or None) in else_; for any
  -- other truthy value the attribute read `node.else_.node` of line 167 is
  -- modelled as the AttributeError a kind without a `node` field would raise,
  -- before the if-condition is rendered
  | .If cexpr thenN elseifs elseN, _, ind => do
      let body0 ← unparseNode cfg thenN false 0
      let body1 ← unparseElseifs cfg ind elseifs body0
      if pyTruthy elseN then
        Except.error (.attributeError (pyTypeName elseN) "node")
      else do
        let cs ← unparseNode cfg cexpr true 0
        .ok ("\x7b% if " ++ cs ++ " -%\x7d\n" ++ repeatStr indentWith (ind + 1)
              ++ body1 ++ "\n\x7b% endif -%\x7d")
  -- lines 171-175: the branch first evaluates the callee name
  -- `ForeachVariable` (undefined; phpast exports ForEachVariable) and raises
  -- NameError before `loop_var_index` is read or incremented
  | .While _ _, _, _ => .error (.nameError "ForeachVariable")
  -- line 177 onwards: `isinstance(node, Foreach)` raises NameError for every
  -- remaining kind, for None, and for the dead branches after it
  | _, _, _ => .error (.nameError "Foreach")

/-- Sequential rendering of a node list (the generator expressions of lines
81, 87, 97-99 and the map of line 62): each child with the given `is_expr`
flag and indent 0, stopping at the first exception. -/
def unparseEach (cfg : Cfg) (isExpr : Bool) (ind : Nat) :
    List PNode → Except PyErr (List String)
  | [] => .ok []
  | x :: xs => do
      let s ← unparseNode cfg x isExpr ind
      let rest ← unparseEach cfg isExpr ind xs
      .ok (s :: rest)

/-- The elseif loop of lines 163-165, accumulating onto `body`.  The parser
only ever stores ElseIf nodes in `elseifs`; for any other kind the attribute
reads `elseif.expr` / `elseif.node` are modelled as an AttributeError. -/
def unparseElseifs (cfg : Cfg) (ind : Nat) :
    List PNode → String → Except PyErr String
  | [], acc => .ok acc
  | .ElseIf eexpr enode :: rest, acc => do
      let ce ← unparseNode cfg eexpr true 0
      let cb ← unparseNode cfg enode false (ind + 1)
      unparseElseifs cfg ind rest
        (acc ++ "\n\x7b% elif " ++ ce ++ " -%\x7d\n"
          ++ repeatStr indentWith (ind + 1) ++ cb)
  | other :: _, _ => Except.error (.attributeError (pyTypeName other) "expr")

end

/-- unparse (lines 61-62): top-level nodes rendered in statement position and
joined with the default separator, a newline. -/
def unparseSeq (cfg : Cfg) (nodes : List PNode) : Except PyErr String := do
  let parts ← unparseEach cfg false 0 nodes
  .ok (joinWith "\n" parts)

/- ------------------------------------------------------------------ -/
/- Part 3: blank-line collapse, stub synthesis, run pipeline.          -/
/- ------------------------------------------------------------------ -/

/-- Python `s.replace("\n\n", "\n")` (php2jinja.py line 267): one
left-to-right pass replacing each non-overlapping occurrence of two
consecutive newlines by one, resuming after the replacement. -/
def pyReplaceNN : List Char → List Char
  | [] => []
  | [c] => [c]
  | a :: b :: rest =>
      if a = '\n' && b = '\n' then '\n' :: pyReplaceNN rest
      else a :: pyReplaceNN (b :: rest)

/-- The blank-line collapse applied to the assembled template text. -/
def collapseBlankLines (s : String) : String := ⟨pyReplaceNN s.data⟩

/-- No two consecutive newlines anywhere in the character list. -/
def noDoubleNL : List Char → Bool
  | a :: b :: rest => !(a = '\n' && b = '\n') && noDoubleNL (b :: rest)
  | _ => true

/-- No three consecutive newlines anywhere in the character list. -/
def noTripleNL : List Char → Bool
  | a :: b :: c :: rest =>
      !(a = '\n' && b = '\n' && c = '\n') && noTripleNL (b :: c :: rest)
  | _ => true

/-- Python `len(n.params)` / `n.params` on a recorded call: the kinds of this
phpast that declare a `params` field; any other value raises AttributeError. -/
def callParams : PNode → Except PyErr (List PNode)
  | .FunctionCall _ ps => .ok ps
  | .MethodCall _ _ ps => .ok ps
  | .New _ ps => .ok ps
  | .Function _ ps _ _ => .ok ps
  | .Method _ _ ps _ _ => .ok ps
  | other => .error (.attributeError (pyTypeName other) "params")

/-- Stable insertion of a keyed element after every element whose key is
less than or equal, giving, by left fold, the stable ascending sort that
Python `sorted(nodes, key=lambda n: len(n.params))` performs (line 258). -/
def insertSortedByKey (x : Nat × PNode) : List (Nat × PNode) → List (Nat × PNode)
  | [] => [x]
  | y :: ys => if y.1 ≤ x.1 then y :: insertSortedByKey x ys else x :: y :: ys

/-- Stable ascending sort by precomputed key. -/
def sortByArity (l : List (Nat × PNode)) : List (Nat × PNode) :=
  l.foldl (fun acc x => insertSortedByKey x acc) []

/-- One stub block of the loop at php2jinja.py lines 257-264, for one
`(name, nodes)` entry of `called_functions`.  The recorded calls are sorted
by argument count (the key function evaluates `len(n.params)` on each call
first), `nodes[-1]` is the canonical arity (IndexError on an empty list),
the declaration line has placeholders `arg0, arg1, ...`, and for nonzero
arity the example comments are, in text,
`list(set(map(lambda n: unparse_node(n, is_expr=True), nodes)))[:3]` - the
iteration order of a Python set is implementation-defined (it depends on the
per-process string-hash seed), so it is modelled as the parameter
`setOrder`, whose intent is to list the distinct rendered strings in some
order. -/
def stubEntryText (cfg : Cfg) (setOrder : List String → List String)
    (name : String) (nodes : List PNode) : Except PyErr String := do
  let keyed ← nodes.mapM (fun n => do
      let ps ← callParams n
      pure (ps.length, n))
  let sortedNodes := sortByArity keyed
  match sortedNodes.getLast? with
  | none => .error .indexError
  | some (k, _longest) => do
      let header := "def " ++ name ++ "("
        ++ joinWith ", " ((List.range k).map (fun i => "arg" ++ toString i))
        ++ "):\n"
      let comments ←
        if k > 0 then do
          let rendered ← (sortedNodes.map (fun p => p.2)).mapM
            (fun n => unparseNode cfg n true 0)
          pure (String.join ((setOrder rendered).take 3
            |>.map (fun ex => "    # " ++ ex ++ "\n")))
        else pure ""
      .ok (header ++ comments ++ "    pass\n\n")

/-- What one run writes: the template text (absent under `--no-out`) and the
stub file text (absent unless requested and at least one call recorded). -/
structure RunOutput where
  template : Option String
  stubs : Option String

/-- The run pipeline of php2jinja.py lines 252-268, starting from the parsed
AST (parsing itself is the external collaborator): translate the top-level
nodes, then write stubs if requested and any call was recorded, then (unless
dry-run) collapse blank lines and write the template.  `called_functions` is
empty when line 254 reads it: its only write, line 210 in the FunctionCall
branch, is unreachable because every FunctionCall node raises
NameError("Foreach") at line 177 first (theorem
`unparseNode_functionCall_raises` below), and a raise during `unparse(ast)`
aborts the run before anything is written. -/
def runTranspiler (cfg : Cfg) (setOrder : List String → List String)
    (ast : List PNode) : Except PyErr RunOutput := do
  let jinja ← unparseSeq cfg ast
  let calledFunctions : List (String × List PNode) := []
  let stubs ←
    if cfg.stubsRequested && !calledFunctions.isEmpty then do
      let entries ← calledFunctions.mapM
        (fun p => stubEntryText cfg setOrder p.1 p.2)
      pure (some ("# stubs for observed function calls\n" ++ String.join entries))
    else pure none
  let template := if cfg.dryRun then none else some (collapseBlankLines jinja)
  .ok ⟨template, stubs⟩

/-- The append special case of the Assignment branch (php2jinja.py line 113):
the left side is an array-offset access whose offset expression is None. -/
def isAppendTarget : PNode → Bool
  | .ArrayOffset _ .Pnull => true
  | _ => false

/- ------------------------------------------------------------------ -/
/- Part 4: supporting lemmas.                                          -/
/- ------------------------------------------------------------------ -/

theorem exceptBind_ok {ε α β : Type} (a : α) (f : α → Except ε β) :
    (Except.ok a >>= f) = f a := rfl

theorem repeatStr_zero (s : String) : repeatStr s 0 = "" := rfl

/-- The only write to `called_functions` in the source, line 210, sits in the
FunctionCall branch, but every FunctionCall node raises NameError("Foreach")
at the line-177 isinstance test before that branch is reached; the registry
is therefore never written. -/
theorem unparseNode_functionCall_raises (cfg : Cfg) (name : String)
    (ps : List PNode) (isExpr : Bool) (ind : Nat) :
    unparseNode cfg (.FunctionCall name ps) isExpr ind
      = .error (.nameError "Foreach") := rfl

/-- The non-append Assignment arm, for any left-hand shape other than an
array offset with absent index. -/
theorem unparseNode_assignment_default (cfg : Cfg) (lhs rhs : PNode)
    (b isExpr : Bool) (ind : Nat) (hA : isAppendTarget lhs = false) :
    unparseNode cfg (.Assignment lhs rhs b) isExpr ind
      = (unparseNode cfg lhs true 0 >>= fun l =>
         unparseNode cfg rhs true 0 >>= fun r =>
         Except.ok (jstatement cfg ["set", l, "=", r] 0 false false true)) := by
  cases lhs
  case ArrayOffset n e =>
    cases e
    case Pnull => simp [isAppendTarget] at hA
    all_goals rfl
  all_goals rfl

/-- The append Assignment arm, unfolded to its two sub-renders. -/
theorem unparseNode_assignment_append (cfg : Cfg) (container rhs : PNode)
    (b isExpr : Bool) (ind : Nat) :
    unparseNode cfg (.Assignment (.ArrayOffset container .Pnull) rhs b) isExpr ind
      = (unparseNode cfg container false 0 >>= fun c =>
         unparseNode cfg rhs true 0 >>= fun r =>
         Except.ok ("\x7b% do " ++ c ++ ".append(" ++ r ++ ") -%\x7d")) := rfl

/-- One replacement pass keeps the head character of a non-empty string. -/
theorem pyReplaceNN_cons (c : Char) (r : List Char) :
    ∃ t, pyReplaceNN (c :: r) = c :: t := by
  cases r with
  | nil => exact ⟨[], rfl⟩
  | cons b r' =>
    simp only [pyReplaceNN]
    split
    · next h =>
        rw [Bool.and_eq_true] at h
        have hc : c = '\n' := of_decide_eq_true h.1
        exact ⟨pyReplaceNN r', by rw [hc]⟩
    · exact ⟨pyReplaceNN (b :: r'), rfl⟩

theorem noTripleNL_tail (x : Char) (l : List Char)
    (h : noTripleNL (x :: l) = true) : noTripleNL l = true := by
  cases l with
  | nil => rfl
  | cons a t =>
    cases t with
    | nil => rfl
    | cons b r =>
        simp only [noTripleNL, Bool.and_eq_true] at h
        exact h.2

/-- The collapse is the identity on strings with no double newline. -/
theorem pyReplaceNN_of_noDouble (l : List Char) (h : noDoubleNL l = true) :
    pyReplaceNN l = l := by
  induction l with
  | nil => rfl
  | cons a t ih =>
      cases t with
      | nil => rfl
      | cons b r =>
          simp only [noDoubleNL, Bool.and_eq_true] at h
          have hf : (a = '\n' && b = '\n') = false := by
            rcases h with ⟨h1, -⟩
            revert h1
            cases hv : (a = '\n' && b = '\n') <;> simp
          rw [pyReplaceNN, if_neg (by simp [hf])]
          rw [ih h.2]

/-- One pass over a string with no triple newline leaves no double newline. -/
theorem noDoubleNL_pyReplaceNN (l : List Char) :
    noTripleNL l = true → noDoubleNL (pyReplaceNN l) = true := by
  induction l using pyReplaceNN.induct with
  | case1 => intro _; rfl
  | case2 c => intro _; rfl
  | case3 a b rest hab ih =>
      intro h
      simp only [pyReplaceNN]
      rw [if_pos hab]
      rw [Bool.and_eq_true] at hab
      have ha : a = '\n' := of_decide_eq_true hab.1
      have hb : b = '\n' := of_decide_eq_true hab.2
      subst ha
      subst hb
      cases rest with
      | nil => rfl
      | cons c r =>
          obtain ⟨t, ht⟩ := pyReplaceNN_cons c r
          rw [ht]
          simp only [noTripleNL, Bool.and_eq_true] at h
          have hcne : ¬(c = '\n') := by simpa using h.1
          have htail : noTripleNL (c :: r) = true := noTripleNL_tail _ _ h.2
          simp only [noDoubleNL, Bool.and_eq_true]
          exact ⟨by simp [hcne], ht ▸ ih htail⟩
  | case4 a b rest hab ih =>
      intro h
      simp only [pyReplaceNN]
      rw [if_neg hab]
      obtain ⟨t, ht⟩ := pyReplaceNN_cons b rest
      rw [ht]
      have hf : (a = '\n' && b = '\n') = false := by
        cases hv : (a = '\n' && b = '\n')
        · rfl
        · exact absurd hv hab
      have htail : noTripleNL (b :: rest) = true := noTripleNL_tail _ _ h
      simp only [noDoubleNL, Bool.and_eq_true]
      exact ⟨by simp [hf], ht ▸ ih htail⟩

theorem pyGetattr_pySetattr_self {α : Type} (o : List (String × α))
    (k : String) (v : α) : pyGetattr (pySetattr o k v) k = some v := by
  induction o with
  | nil => simp [pySetattr, pyGetattr]
  | cons p rest ih =>
      obtain ⟨k0, v0⟩ := p
      simp only [pySetattr]
      split
      · simp [pyGetattr]
      · next hne => simp [pyGetattr, hne, ih]

theorem pyGetattr_pySetattr_ne {α : Type} (o : List (String × α))
    (k k' : String) (v : α) (hne : k' ≠ k) :
    pyGetattr (pySetattr o k v) k' = pyGetattr o k' := by
  have hne' : ¬(k = k') := fun h => hne h.symm
  induction o with
  | nil => simp [pySetattr, pyGetattr, hne']
  | cons p rest ih =>
      obtain ⟨k0, v0⟩ := p
      simp only [pySetattr]
      split
      · next heq =>
          subst heq
          simp [pyGetattr, hne']
      · next _ =>
          by_cases hk : k0 = k'
          · simp [pyGetattr, hk]
          · simp [pyGetattr, hk, ih]

theorem pyGetattr_foldl_notmem {α : Type} (ps : List (String × α)) (k : String) :
    ∀ init : List (String × α), (∀ p ∈ ps, p.1 ≠ k) →
      pyGetattr (ps.foldl (fun o p => pySetattr o p.1 p.2) init) k
        = pyGetattr init k := by
  induction ps with
  | nil => intro init _; rfl
  | cons p rest ih =>
      intro init h
      rw [List.foldl_cons, ih _ (fun q hq => h q (List.mem_cons_of_mem _ hq))]
      exact pyGetattr_pySetattr_ne init p.1 k p.2
        (fun hh => h p (List.mem_cons_self _ _) hh.symm)

theorem pyGetattr_foldl_mem {α : Type} (ps : List (String × α)) (k : String) (v : α) :
    ∀ init : List (String × α), (k, v) ∈ ps → (ps.map Prod.fst).Nodup →
      pyGetattr (ps.foldl (fun o p => pySetattr o p.1 p.2) init) k = some v := by
  induction ps with
  | nil => intro init hmem _; cases hmem
  | cons p rest ih =>
      intro init hmem hnd
      rw [List.map_cons, List.nodup_cons] at hnd
      rw [List.foldl_cons]
      rcases List.mem_cons.mp hmem with heq | hmem'
      · have hpk : p.1 = k := (congrArg Prod.fst heq).symm
        have hks : ∀ q ∈ rest, q.1 ≠ k := by
          intro q hq hqk
          apply hnd.1
          have hm : q.1 ∈ rest.map Prod.fst := List.mem_map_of_mem Prod.fst hq
          rw [hqk] at hm
          rw [hpk]
          exact hm
        rw [pyGetattr_foldl_notmem rest k (pySetattr init p.1 p.2) hks]
        rw [← heq]
        exact pyGetattr_pySetattr_self init k v
      · exact ih _ hmem' hnd.2

/- ------------------------------------------------------------------ -/
/- Part 5: the claims.                                                 -/
/- ------------------------------------------------------------------ -/

/-- C1: the claim says that `unparse_node` never raises on any node kind of
the data model and returns marker text for unsupported kinds.  On this code
it fails: a minimal Class node (likewise Interface, Switch, and a compound
assignment other than concatenation) raises NameError("Foreach") at the
line-177 isinstance test, and a minimal IsSet node raises AttributeError at
line 141 because this phpast declares its field as `expr`, not `nodes`. -/
theorem c1_dispatch_raises_on_unsupported_kinds :
    unparseNode defaultCfg (.Class "C" .Pnull .Pnull [] []) false 0
      = .error (.nameError "Foreach")
  ∧ unparseNode defaultCfg (.Interface "I" .Pnull []) false 0
      = .error (.nameError "Foreach")
  ∧ unparseNode defaultCfg (.Switch (.Variable "$x") []) false 0
      = .error (.nameError "Foreach")
  ∧ unparseNode defaultCfg (.AssignOp "+=" (.Variable "$x") (.Pint 1)) false 0
      = .error (.nameError "Foreach")
  ∧ unparseNode defaultCfg (.IsSet (.Variable "$x")) false 0
      = .error (.attributeError "IsSet" "nodes") :=
  ⟨rfl, rfl, rfl, rfl, rfl⟩

/-- C2 counterexample: translating `echo $x;` in the default (delimiter)
configuration does not yield the plain output tag `\x7b\x7b x | safe \x7d\x7d`
claimed - jexpr right-strips by default. -/
theorem c2_echo_counterexample :
    unparseNode defaultCfg (.Echo [.Variable "$x"]) false 0
      ≠ .ok "\x7b\x7b x | safe \x7d\x7d" := by decide

/-- C2 amended: translating an Echo of the single variable `$x` in delimiter
mode yields exactly `\x7b\x7b x | safe -\x7d\x7d`: the sigil is stripped, the
joined operands are wrapped in an output tag suffixed with the safe filter,
and the tag carries the default trailing strip marker `-`. -/
theorem c2_echo_amended :
    unparseNode defaultCfg (.Echo [.Variable "$x"]) false 0
      = .ok "\x7b\x7b x | safe -\x7d\x7d" := rfl

/-- C3: the claim describes hash-vs-sequence rendering of non-empty array
literals.  On this code every non-empty Array literal raises AttributeError:
each element is rendered first, and the ArrayElement branch reads `node.key`
while this phpast declares the fields name/node/is_ref (line 100's
`node.nodes[0].key` would raise identically, as the third conjunct shows for
a non-ArrayElement first element). -/
theorem c3_array_literal_raises :
    unparseNode defaultCfg (.Array [.ArrayElement (.Constant "k") (.Pint 1) false]) true 0
      = .error (.attributeError "ArrayElement" "key")
  ∧ unparseNode defaultCfg (.Array [.ArrayElement .Pnull (.Pint 1) false]) true 0
      = .error (.attributeError "ArrayElement" "key")
  ∧ unparseNode defaultCfg (.Array [.Pint 5]) true 0
      = .error (.attributeError "int" "key") :=
  ⟨rfl, rfl, rfl⟩

/-- C4: an Assignment whose left side is an ArrayOffset with absent (None)
offset lowers to a do-append action tag built from the rendered container
and right-hand side; an Assignment with any other left-hand shape lowers to
a set tag `set lhs = rhs` (shown in delimiter mode, the default). -/
theorem c4_assignment_lowering (cfg : Cfg) (container rhs lhs : PNode)
    (isRef : Bool) (cs rs ls : String) :
    (unparseNode cfg container false 0 = .ok cs →
      unparseNode cfg rhs true 0 = .ok rs →
      unparseNode cfg (.Assignment (.ArrayOffset container .Pnull) rhs isRef) false 0
        = .ok ("\x7b% do " ++ cs ++ ".append(" ++ rs ++ ") -%\x7d"))
  ∧ (isAppendTarget lhs = false → cfg.useLineStatements = false →
      unparseNode cfg lhs true 0 = .ok ls →
      unparseNode cfg rhs true 0 = .ok rs →
      unparseNode cfg (.Assignment lhs rhs isRef) false 0
        = .ok ("\x7b% set " ++ ls ++ " = " ++ rs ++ " -%\x7d")) := by
  constructor
  · intro h1 h2
    simp only [unparseNode_assignment_append, h1, h2, exceptBind_ok]
  · intro hA hU h1 h2
    simp only [unparseNode_assignment_default cfg lhs rhs isRef false 0 hA,
      h1, h2, exceptBind_ok]
    exact congrArg Except.ok (by
      apply String.ext
      simp [jstatement, hU, repeatStr_zero, joinWith, String.data_append])

/-- C4 witness: `$arr[] = $x;` yields the append action tag and
`$y = $x;` yields the set tag. -/
theorem c4_assignment_lowering_witness :
    unparseNode defaultCfg
        (.Assignment (.ArrayOffset (.Variable "$arr") .Pnull) (.Variable "$x") false)
        false 0
      = .ok "\x7b% do arr.append(x) -%\x7d"
  ∧ unparseNode defaultCfg (.Assignment (.Variable "$y") (.Variable "$x") false) false 0
      = .ok "\x7b% set y = x -%\x7d" := by
  have h := c4_assignment_lowering defaultCfg (.Variable "$arr") (.Variable "$x")
    (.Variable "$y") false "arr" "x" "y"
  exact ⟨h.1 rfl rfl, h.2 rfl rfl rfl rfl⟩

/-- C5: the claim describes stub synthesis for names in the call-site
registry.  On this code it cannot happen: rendering the example invocations
(line 262 maps `unparse_node` over the recorded calls) raises
NameError("Foreach"), as does translating any plain function call in the
first place (second conjunct) - so the registry is never populated and the
stub loop would raise if it ever saw a nonzero-arity entry. -/
theorem c5_stub_synthesis_raises (setOrder : List String → List String) :
    stubEntryText defaultCfg setOrder "f"
        [.FunctionCall "f" [.Parameter (.Variable "$x") false]]
      = .error (.nameError "Foreach")
  ∧ unparseNode defaultCfg (.FunctionCall "f" [.Parameter (.Variable "$x") false]) false 0
      = .error (.nameError "Foreach") :=
  ⟨rfl, rfl⟩

/-- C6 counterexample: the blank-line collapse is not idempotent on all
strings - on three consecutive newlines the first pass yields two newlines
and the second pass collapses further. -/
theorem c6_collapse_counterexample :
    collapseBlankLines (collapseBlankLines "\n\n\n") ≠ collapseBlankLines "\n\n\n" := by
  decide

/-- C6 amended: the collapse replaces non-overlapping double newlines in one
left-to-right pass, and applying it twice equals applying it once for every
string containing no run of three consecutive newlines (the counterexample
forces exactly this restriction). -/
theorem c6_collapse_idempotent_amended (s : String)
    (h : noTripleNL s.data = true) :
    collapseBlankLines (collapseBlankLines s) = collapseBlankLines s := by
  show (⟨pyReplaceNN (collapseBlankLines s).data⟩ : String) = ⟨pyReplaceNN s.data⟩
  have hd : (collapseBlankLines s).data = pyReplaceNN s.data := rfl
  rw [hd]
  exact congrArg String.mk
    (pyReplaceNN_of_noDouble _ (noDoubleNL_pyReplaceNN s.data h))

/-- C6 witness: a concrete string with a single blank line satisfies the
no-triple-newline hypothesis and the collapse is idempotent on it. -/
theorem c6_collapse_idempotent_witness :
    noTripleNL ("a\n\nb".data) = true
  ∧ collapseBlankLines (collapseBlankLines "a\n\nb") = collapseBlankLines "a\n\nb" :=
  ⟨by decide, c6_collapse_idempotent_amended "a\n\nb" (by decide)⟩

/-- C7: translating the same AST under the same configuration is
deterministic: the run output is a pure function of (configuration, AST),
and in particular it does not depend on the iteration order of the Python
set used for stub example de-duplication (the only environment-dependent
ordering in the source), because the call registry is provably empty in
every completed run - its only write site is unreachable
(`unparseNode_functionCall_raises`). -/
theorem c7_run_deterministic (cfg : Cfg) (o1 o2 : List String → List String)
    (ast : List PNode) :
    runTranspiler cfg o1 ast = runTranspiler cfg o2 ast := by
  obtain ⟨uls, dr, sr⟩ := cfg
  cases sr <;> rfl

/-- C8: constructing a Node with a positional-argument count different from
the kind's declared field count is a fatal construction error, while the
exact count succeeds and binds every declared field to its positional
argument (field lists of actual kinds are duplicate-free, as the Nodup
hypothesis records). -/
theorem c8_node_init_arity {α : Type} (cls : String) (fields : List String)
    (args : List α) (ln : α) :
    (fields.length ≠ args.length →
      nodeInit cls fields args ln
        = .error (cls ++ " takes " ++ toString fields.length ++ " arguments"))
  ∧ (fields.length = args.length → fields.Nodup →
      ∃ attrs, nodeInit cls fields args ln = .ok attrs ∧
        ∀ i : Nat, ∀ hf : i < fields.length, ∀ ha : i < args.length,
          pyGetattr attrs (fields.get ⟨i, hf⟩) = some (args.get ⟨i, ha⟩)) := by
  constructor
  · intro hne
    simp [nodeInit, hne]
  · intro heq hnd
    have hinit : nodeInit cls fields args ln
        = .ok ((fields.zip args).foldl (fun attrs p => pySetattr attrs p.1 p.2)
            (pySetattr [] "lineno" ln)) := by
      simp [nodeInit, heq]
    refine ⟨_, hinit, ?_⟩
    intro i hf ha
    have hz : i < (fields.zip args).length := by
      rw [List.length_zip]
      omega
    have hpair : (fields.zip args).get ⟨i, hz⟩
        = (fields.get ⟨i, hf⟩, args.get ⟨i, ha⟩) := by
      simp [List.get_eq_getElem, List.getElem_zip]
    have hmem : (fields.get ⟨i, hf⟩, args.get ⟨i, ha⟩) ∈ fields.zip args := by
      rw [← hpair]
      exact List.get_mem _ _ _
    apply pyGetattr_foldl_mem (fields.zip args) _ _ _ hmem
    rw [List.map_fst_zip fields args (by omega)]
    exact hnd

/-- C8 witness: the Assignment kind (three fields) rejects two positional
arguments with the exact assertion message, and with three arguments every
field is bound to its positional value. -/
theorem c8_node_init_arity_witness :
    nodeInit "Assignment" ["node", "expr", "is_ref"] ["a", "b"] "z"
      = Except.error "Assignment takes 3 arguments"
  ∧ (∃ attrs, nodeInit "Assignment" ["node", "expr", "is_ref"] ["a", "b", "c"] "z"
      = Except.ok attrs ∧ pyGetattr attrs "expr" = some "b") := by
  constructor
  · exact (c8_node_init_arity "Assignment" ["node", "expr", "is_ref"] ["a", "b"] "z").1
      (by decide)
  · obtain ⟨attrs, hok, hbind⟩ :=
      (c8_node_init_arity "Assignment" ["node", "expr", "is_ref"] ["a", "b", "c"] "z").2
        rfl (by decide)
    refine ⟨attrs, hok, ?_⟩
    have hb := hbind 1 (by decide) (by decide)
    simpa using hb

/-- C9: the claim says each While is lowered to a foreach over a fresh
loop_var_N with a strictly increasing counter.  On this code the While
branch raises NameError("ForeachVariable") when evaluating the undefined
callee at line 173, before the counter is read or incremented, so no
foreach and no loop variable is ever produced (shown for a single While
and for two sibling Whiles at top level). -/
theorem c9_while_lowering_raises (cond body cond2 body2 : PNode) :
    unparseNode defaultCfg (.While cond body) false 0
      = .error (.nameError "ForeachVariable")
  ∧ unparseSeq defaultCfg [.While cond body, .While cond2 body2]
      = .error (.nameError "ForeachVariable") :=
  ⟨rfl, rfl⟩

/-- C10: an Array literal with an empty element list renders as the empty
sequence literal `[]` in any configuration and rendering context: the
truthiness guard short-circuits before the first-element key access. -/
theorem c10_empty_array_renders_sequence (cfg : Cfg) (isExpr : Bool) (ind : Nat) :
    unparseNode cfg (.Array []) isExpr ind = .ok "[]" := rfl
